import Mathlib

/-
Verification development for the Subtitler repository's subtitle-translation
core.  The Python sources are shallowly embedded: each relevant function is
translated into an executable Lean definition, external collaborators
(the langdetect detector, the MyMemoryTranslator provider, the filesystem,
chardet) are passed in as explicit function arguments, and the sequence of
texts submitted to the translation provider is returned alongside the result
so that "no provider call is made" properties are provable.
-/

/-- A parsed SRT caption record, mirroring `srt.Subtitle` as used by the
repository: `index`, `start`, `end` (named `stop` here because `end` is a Lean
keyword) and `content`.  Times are modelled as whole milliseconds, the
resolution of the SRT `HH:MM:SS,mmm` timestamp grammar. -/
structure Subtitle where
  index : Nat
  start : Nat
  stop : Nat
  content : String
deriving Repr, DecidableEq

/-- The dictionary returned by `FileReader.read`: the `"type"` tag together
with its payload.  The tag values `SRT` / `JSON` / `JSONL` of
`file_handling/filereader.py` are reflected as constructors, which ties each
tag to the payload shape the reader actually produces for it. -/
inductive ReadData where
  | srt (subs : List Subtitle)
  | json (raw : String)
  | jsonl (raw : String)
deriving Repr, DecidableEq

/-- The provider failures caught by `SubtitleTranslation.translate`
(`deep_translator.exceptions`): `NotValidLength`, `NotValidPayload`,
`TranslationNotFound`. -/
inductive ProviderError where
  | notValidLength
  | notValidPayload
  | translationNotFound
deriving Repr, DecidableEq

/-- The `TranslationError` raised by `subtitles/subtitle_translation.py`,
one constructor per raise site; each constructor carries exactly the data
interpolated into the corresponding Python message
(`languageMismatch` names detected and expected language,
`couldNotTranslate` names the offending caption text only). -/
inductive TranslationErr where
  | couldNotDetect
  | languageMismatch (detected : String) (expected : String)
  | couldNotTranslate (content : String)
  | couldNotReadFile
deriving Repr, DecidableEq

/-- A successful return value of `SubtitleTranslation.translate`: the JSON
branch of the Python function falls through without a `return` statement and
hence returns `None` (`noneValue`); the SRT branch returns the translated
records. -/
inductive TransResult where
  | noneValue
  | subs (l : List Subtitle)
deriving Repr, DecidableEq

/-- Python's `" ".join(content)`. -/
def joinSpace (l : List String) : String := String.intercalate " " l

instance exceptDecEq {e a : Type} [DecidableEq e] [DecidableEq a] :
    DecidableEq (Except e a)
  | .error x, .error y =>
    if h : x = y then .isTrue (by rw [h]) else .isFalse (fun hh => h (Except.error.inj hh))
  | .error _, .ok _ => .isFalse (fun hh => by cases hh)
  | .ok _, .error _ => .isFalse (fun hh => by cases hh)
  | .ok x, .ok y =>
    if h : x = y then .isTrue (by rw [h]) else .isFalse (fun hh => h (Except.ok.inj hh))

/-- The provider loop of `SubtitleTranslation.translate`: submit each caption
text in order; on the first provider failure abort with `TranslationError`
carrying that text.  The second component is the trace of texts submitted to
the provider, in submission order. -/
def providerRun (provider : String → Except ProviderError String) :
    List String → Except TranslationErr (List String) × List String
  | [] => (.ok [], [])
  | c :: cs =>
    match provider c with
    | .error _ => (.error (.couldNotTranslate c), [c])
    | .ok t =>
      let r := providerRun provider cs
      (r.1.map (fun ts => t :: ts), c :: r.2)

/-- `SubtitleTranslation.translate` of `src/subtitles/subtitle_translation.py`
(lines 103-158), applied to the already-read document.  `detect` models
`langdetect.detect` (`none` = `LangDetectException`), `provider` models
`MyMemoryTranslator(source, target).translate` (`.error` = one of the three
caught provider exceptions).  The second component of the result is the trace
of texts submitted to the provider. -/
def subtitleTranslationTranslate
    (detect : String → Option String)
    (provider : String → Except ProviderError String)
    (sourceLanguage targetLanguage : String) (data : ReadData) :
    Except TranslationErr TransResult × List String :=
  match data with
  | .json _ => (.ok .noneValue, [])
  | .jsonl _ => (.ok .noneValue, [])
  | .srt srtContents =>
    let content := srtContents.map (·.content)
    match detect (joinSpace content) with
    | none => (.error .couldNotDetect, [])
    | some detected =>
      if detected ≠ sourceLanguage then
        (.error (.languageMismatch detected sourceLanguage), [])
      else
        match providerRun provider content with
        | (.error e, tr) => (.error e, tr)
        | (.ok translated, tr) =>
          (.ok (.subs ((srtContents.zip translated).map
            (fun p => { p.1 with content := p.2 }))), tr)

/-- On a successful run of every provider call, `providerRun` returns the
translations in order and the trace is exactly the input texts. -/
theorem providerRun_ok (provider : String → Except ProviderError String)
    (f : String → String) :
    ∀ cs : List String, (∀ c ∈ cs, provider c = .ok (f c)) →
      providerRun provider cs = (.ok (cs.map f), cs)
  | [], _ => rfl
  | c :: cs, h => by
    have hc : provider c = .ok (f c) := h c (by simp)
    have ih := providerRun_ok provider f cs (fun x hx => h x (by simp [hx]))
    simp [providerRun, hc, ih, Except.map]

/-- `providerRun` aborts on the first failing text: the error carries that
text, and the trace contains exactly the texts before it plus the failing
text itself (later texts are never submitted). -/
theorem providerRun_first_error (provider : String → Except ProviderError String)
    (f : String → String) (pre : List String) (bad : String) (post : List String)
    (e : ProviderError)
    (hpre : ∀ c ∈ pre, provider c = .ok (f c)) (hbad : provider bad = .error e) :
    providerRun provider (pre ++ bad :: post)
      = (.error (.couldNotTranslate bad), pre ++ [bad]) := by
  induction pre with
  | nil => simp [providerRun, hbad]
  | cons c cs ih =>
    have hc : provider c = .ok (f c) := hpre c (by simp)
    have ihh := ih (fun x hx => hpre x (by simp [hx]))
    simp [providerRun, hc, ihh, Except.map]

/-- C1: for every SRT document and expected source language, if the language
detected over the space-joined concatenation of all caption texts differs
from the expected source language, `translate` raises a `TranslationError`
naming the detected and the expected language, and no text is ever submitted
to the translation provider (empty provider trace). -/
theorem translate_mismatch_gate
    (detect : String → Option String) (provider : String → Except ProviderError String)
    (sourceLanguage targetLanguage : String) (subs : List Subtitle) (d : String)
    (hdet : detect (joinSpace (subs.map (·.content))) = some d)
    (hne : d ≠ sourceLanguage) :
    subtitleTranslationTranslate detect provider sourceLanguage targetLanguage (.srt subs)
      = (.error (.languageMismatch d sourceLanguage), []) := by
  simp [subtitleTranslationTranslate, hdet, hne]

theorem translate_mismatch_gate_w :
    subtitleTranslationTranslate (fun _ => some "de") (fun s => .ok s) "en" "fr"
      (.srt [⟨1, 0, 1000, "Hallo"⟩]) = (.error (.languageMismatch "de" "en"), []) :=
  translate_mismatch_gate _ _ _ _ _ _ rfl (by decide)

/-- C2: on a document read from a `.json` or `.jsonl` file, `translate` of
`subtitles/subtitle_translation.py` does NOT fail: its JSON branch is a TODO
stub that only prints, so the function falls through and returns Python
`None` — a silent no-op with no provider call.  This contradicts the spec's
requirement of a `FormatNotSupportedForTranslation` failure. -/
theorem translate_json_silent_noop
    (detect : String → Option String) (provider : String → Except ProviderError String)
    (sourceLanguage targetLanguage raw : String) :
    subtitleTranslationTranslate detect provider sourceLanguage targetLanguage (.json raw)
        = (.ok .noneValue, [])
    ∧ subtitleTranslationTranslate detect provider sourceLanguage targetLanguage (.jsonl raw)
        = (.ok .noneValue, []) :=
  ⟨rfl, rfl⟩

/-- Zipping a record list with the map of a function over its own contents
and writing each pair's second component back into `content` is the same as
mapping the content update directly. -/
theorem zip_map_content (f : String → String) :
    ∀ subs : List Subtitle,
      (subs.zip (subs.map (fun x => f x.content))).map
          (fun p => { p.1 with content := p.2 })
        = subs.map (fun s => { s with content := f s.content })
  | [] => rfl
  | s :: subs => by
    simp only [List.map_cons, List.zip_cons_cons]
    rw [zip_map_content f subs]

/-- C5: when every provider call succeeds (provider acts as the function `f`)
and the detected language matches, `translate` returns a document with
exactly the same records in the same order, each `content` replaced by its
translation and `index`/`start`/`stop` untouched; the trace shows each
original text submitted once, in order. -/
theorem translate_success_shape
    (detect : String → Option String) (provider : String → Except ProviderError String)
    (sourceLanguage targetLanguage : String) (f : String → String) (subs : List Subtitle)
    (hdet : detect (joinSpace (subs.map (·.content))) = some sourceLanguage)
    (hp : ∀ c ∈ subs.map (·.content), provider c = .ok (f c)) :
    subtitleTranslationTranslate detect provider sourceLanguage targetLanguage (.srt subs)
      = (.ok (.subs (subs.map (fun s => { s with content := f s.content }))),
         subs.map (·.content)) := by
  simp only [subtitleTranslationTranslate, hdet, ne_eq, not_true_eq_false, if_false,
    providerRun_ok provider f _ hp]
  rw [List.map_map]
  simp only [Function.comp_def]
  rw [zip_map_content]

/-- Concrete witness for C5 (the spec's scenario A): two records, stub
translator mapping Hello to Hola and World to Mundo. -/
theorem translate_success_shape_w :
    subtitleTranslationTranslate (fun _ => some "en")
      (fun c => .ok (if c = "Hello" then "Hola" else "Mundo")) "en" "es"
      (.srt [⟨1, 1000, 2000, "Hello"⟩, ⟨2, 3000, 4000, "World"⟩])
      = (.ok (.subs [⟨1, 1000, 2000, "Hola"⟩, ⟨2, 3000, 4000, "Mundo"⟩]),
         ["Hello", "World"]) :=
  translate_success_shape _ _ _ _ (fun c => if c = "Hello" then "Hola" else "Mundo") _
    rfl (fun c _ => rfl)

/-- C3 counterexample: the `TranslationError` raised on a provider failure
does not carry the failing record's index.  Two one-record documents whose
records differ only in `index` (5 vs 9) produce byte-identical errors
(`couldNotTranslate "bad"`, mirroring the Python message
`Could not translate subtitle: bad`), so the index is not recoverable from
the error, refuting the claim that the error carries index and text. -/
theorem translate_error_lacks_index :
    subtitleTranslationTranslate (fun _ => some "en")
        (fun _ => .error ProviderError.notValidPayload) "en" "es"
        (.srt [⟨5, 0, 1000, "bad"⟩])
      = subtitleTranslationTranslate (fun _ => some "en")
        (fun _ => .error ProviderError.notValidPayload) "en" "es"
        (.srt [⟨9, 0, 1000, "bad"⟩])
    ∧ subtitleTranslationTranslate (fun _ => some "en")
        (fun _ => .error ProviderError.notValidPayload) "en" "es"
        (.srt [⟨5, 0, 1000, "bad"⟩])
      = (.error (.couldNotTranslate "bad"), ["bad"]) := by
  constructor <;> rfl

/-- C3 as amended: on the first provider failure (`NotValidLength`,
`NotValidPayload` or `TranslationNotFound`), `translate` raises a single
`TranslationError` carrying that record's original text (not its index), and
aborts the whole run: the provider trace is exactly the texts of the earlier
records followed by the failing text — no later record is submitted and no
record is skipped. -/
theorem translate_first_failure_aborts
    (detect : String → Option String) (provider : String → Except ProviderError String)
    (sourceLanguage targetLanguage : String) (f : String → String)
    (pre : List Subtitle) (bad : Subtitle) (post : List Subtitle) (e : ProviderError)
    (hdet : detect (joinSpace ((pre ++ bad :: post).map (·.content))) = some sourceLanguage)
    (hpre : ∀ c ∈ pre.map (·.content), provider c = .ok (f c))
    (hbad : provider bad.content = .error e) :
    subtitleTranslationTranslate detect provider sourceLanguage targetLanguage
        (.srt (pre ++ bad :: post))
      = (.error (.couldNotTranslate bad.content),
         pre.map (·.content) ++ [bad.content]) := by
  have hrun := providerRun_first_error provider f (pre.map (·.content)) bad.content
    (post.map (·.content)) e hpre hbad
  simp only [subtitleTranslationTranslate]
  rw [hdet]
  simp [hrun]

theorem translate_first_failure_aborts_w :
    subtitleTranslationTranslate (fun _ => some "en")
      (fun c => if c = "bad" then .error ProviderError.notValidLength else .ok c)
      "en" "es"
      (.srt [⟨1, 0, 1000, "fine"⟩, ⟨2, 1000, 2000, "bad"⟩, ⟨3, 2000, 3000, "later"⟩])
      = (.error (.couldNotTranslate "bad"), ["fine", "bad"]) :=
  translate_first_failure_aborts _ _ _ _ (fun c => c)
    [⟨1, 0, 1000, "fine"⟩] ⟨2, 1000, 2000, "bad"⟩ [⟨3, 2000, 3000, "later"⟩]
    ProviderError.notValidLength rfl (by simp) (by simp)

/-- The allow-list `SUPPORTED_ENCODINGS` of `src/srt_processing.py`
(also duplicated in `src/subtitle_translation.py`). -/
def SUPPORTED_ENCODINGS : List String :=
  ["utf-8", "UTF-8-SIG", "ascii", "iso-8859-1",
   "utf-16", "utf-16-le", "utf-16-be", "cp1252", "cp850", "cp437"]

/-- The failures observable by a caller of `SRTProcessing.detect_encoding`.
`typeError` is the uncaught `TypeError` that Python raises when the source
misconstructs `UnicodeDecodeError` (its first argument must be a `str`, and
it takes exactly five arguments); `TypeError` is a subclass of neither
`UnicodeDecodeError`, `FileNotFoundError` nor `IOError`, so no except clause
of either draft catches it and it propagates to the caller as-is. -/
inductive EncodingError where
  | fileNotFound
  | ioError
  | typeError
deriving Repr, DecidableEq

/-- `SRTProcessing.detect_encoding` of `src/srt_processing.py` (lines 51-81).
`fileExists` models whether `open` succeeds, `guess` models
`chardet.detect(raw_data)['encoding']`.  For a non-`None` guess outside
`SUPPORTED_ENCODINGS`, the body raises
`UnicodeDecodeError(encoding, raw_data, 0, 0, msg)` inside the `try`; the
clause `except (UnicodeDecodeError, FileNotFoundError)` catches it and
re-raises `FileNotFoundError(errno.ENOENT, "The SRT file could not be
found.")`, so the caller observes a file-not-found failure, not an encoding
failure.  For a `None` guess, constructing
`UnicodeDecodeError(None, raw_data, 0, 0, msg)` itself fails with
`TypeError: argument 1 must be str`, which no except clause catches: the
caller observes an uncaught `TypeError`. -/
def srtProcessingDetectEncoding (fileExists : Bool) (guess : Option String) :
    Except EncodingError String :=
  if !fileExists then .error .fileNotFound
  else
    match guess with
    | none => .error .typeError
    | some encoding =>
      if encoding ∈ SUPPORTED_ENCODINGS then .ok encoding
      else .error .fileNotFound

/-- `SRTProcessing.detect_encoding` of the `src/subtitles.py` draft
(lines 66-94): it only checks the guess against `None` and returns any
non-`None` guess unchanged — there is no allow-list membership check at all,
so a guess outside `SUPPORTED_ENCODINGS` is returned as-is.  On a `None`
guess it attempts `raise UnicodeDecodeError(msg)`, but the one-argument
constructor call raises `TypeError` (`UnicodeDecodeError` takes exactly five
arguments), which the `except UnicodeDecodeError` clause does not catch, so
the caller observes an uncaught `TypeError`. -/
def subtitlesDetectEncoding (guess : Option String) : Except EncodingError String :=
  match guess with
  | none => .error .typeError
  | some encoding => .ok encoding

/-- C6: no caller ever observes an unsupported-encoding failure.  In
`srt_processing.py`, a non-empty guess outside the allow-list does raise
internally, but the failure the caller observes is `FileNotFoundError`
("The SRT file could not be found"), not an unsupported-encoding failure,
while an empty (`None`) guess crashes with an uncaught `TypeError` from the
misused `UnicodeDecodeError` constructor; the `subtitles.py` draft has no
allow-list check at all and silently returns the out-of-allow-list guess
unchanged (and likewise crashes with `TypeError` on a `None` guess). -/
theorem detect_encoding_failure_misclassified
    (guess : String) (h : guess ∉ SUPPORTED_ENCODINGS) :
    srtProcessingDetectEncoding true (some guess) = .error .fileNotFound
    ∧ srtProcessingDetectEncoding true none = .error .typeError
    ∧ subtitlesDetectEncoding (some guess) = .ok guess
    ∧ subtitlesDetectEncoding none = .error .typeError := by
  refine ⟨?_, rfl, rfl, rfl⟩
  simp [srtProcessingDetectEncoding, h]

theorem detect_encoding_failure_misclassified_w :
    srtProcessingDetectEncoding true (some "utf-32") = .error .fileNotFound
    ∧ srtProcessingDetectEncoding true none = .error .typeError
    ∧ subtitlesDetectEncoding (some "utf-32") = .ok "utf-32"
    ∧ subtitlesDetectEncoding none = .error .typeError :=
  detect_encoding_failure_misclassified "utf-32" (by decide)

/-- The `supported_languages` list of `SRTProcessing._translate_sub` in
`src/srt_processing.py` (lines 166-175), duplicates included. -/
def supported_languages : List String :=
  ["af", "am", "ar", "as", "az", "ba", "be", "bg", "bn", "bo", "br", "bs", "ca", "cs",
   "es", "et", "eu", "fa", "fi", "fo", "fr", "gl", "gu", "ha", "haw", "he", "hi", "hr",
   "it", "ja", "jw", "ka", "kk", "km", "kn", "ko", "la", "lb", "ln", "lo", "lt", "lv",
   "mi", "mk", "ml", "mn", "da", "de", "el", "en", "hu", "hy", "id", "is", "ro", "ru",
   "mr", "ms", "mt", "my", "ne", "nl", "nn", "no", "oc", "pa", "pl", "ps", "lt", "lv",
   "sl", "sn", "so", "sq", "sr", "su", "sv", "sw", "ta", "te", "tg", "th", "sd", "si",
   "tk", "tl", "tr", "tt", "uk", "ur", "uz", "vi", "yi", "yo", "zh",
   "pt", "sk", "mg", "sa", "mg", "ht", "cy"]

/-- The `ValueError` raised by `_translate_sub` for an unsupported target. -/
inductive TargetLanguageError where
  | valueError (target : String)
deriving Repr, DecidableEq

/-- `SRTProcessing._translate_sub` of `src/srt_processing.py`
(lines 150-181): raises `ValueError` when the target language is not in
`supported_languages`, otherwise returns the content unchanged (the actual
translation is a TODO); it makes no call to any translation provider. -/
def srtProcessingTranslateSub (sub_content target_language : String) :
    Except TargetLanguageError String :=
  if target_language ∈ supported_languages then .ok sub_content
  else .error (.valueError target_language)

/-- C7 counterexample: `SubtitleTranslation.translate` performs no
target-language validation at all — called with the unsupported target
`"zz"`, it does not fail with any unsupported-target error and it submits
the caption to the provider (trace `["Hello"]`, i.e. one provider call).
The supported-list check exists only in `SRTProcessing._translate_sub`. -/
theorem translate_skips_target_check :
    "zz" ∉ supported_languages
    ∧ subtitleTranslationTranslate (fun _ => some "en") (fun s => .ok s) "en" "zz"
        (.srt [⟨1, 0, 1000, "Hello"⟩])
      = (.ok (.subs [⟨1, 0, 1000, "Hello"⟩]), ["Hello"]) := by
  exact ⟨by decide, rfl⟩

/-- C7 as amended: the fail-fast supported-target check lives only in
`SRTProcessing._translate_sub`, which fails with `ValueError` naming the
target whenever the target language is outside `supported_languages` (and
performs no provider call in any case, as its type shows — it has no access
to a provider). -/
theorem translate_sub_unsupported_target
    (sub_content target_language : String)
    (h : target_language ∉ supported_languages) :
    srtProcessingTranslateSub sub_content target_language
      = .error (.valueError target_language) := by
  simp [srtProcessingTranslateSub, h]

theorem translate_sub_unsupported_target_w :
    srtProcessingTranslateSub "Hello" "zz" = .error (.valueError "zz") :=
  translate_sub_unsupported_target "Hello" "zz" (by decide)

/-- Modelled from the spec: the language-detection boundary (`langdetect`) is
an external collaborator, "deterministic given a fixed seed" (spec sections 4.3
and 6).  `seeded s` is the detector after `DetectorFactory.seed` was assigned
`s`: a function of seed and text only.  `unseeded` is the detector when no
seed was ever assigned; it may additionally depend on the run's ambient
entropy (its first argument), since the spec guarantees determinism only for
the seeded detector. -/
structure DetectorModel where
  seeded : Nat → String → Option String
  unseeded : Nat → String → Option String

/-- Language identification as run by the drafts that assign
`DetectorFactory.seed = 0` at module import, before any detection
(`src/subtitles.py` line 42, `src/t.py` line 29): the run's entropy is
irrelevant because the detector is seeded with the fixed seed 0. -/
def seededDetectRun (m : DetectorModel) (_entropy : Nat) (text : String) :
    Option String :=
  m.seeded 0 text

/-- Language identification as run by the verification gate of
`src/subtitles/subtitle_translation.py` (lines 122-128): that module never
assigns `DetectorFactory.seed`, so detection runs unseeded. -/
def gateDetectRun (m : DetectorModel) (entropy : Nat) (text : String) :
    Option String :=
  m.unseeded entropy text

/-- A detector conforming to the spec's contract (deterministic when seeded)
whose unseeded mode depends on the run's entropy. -/
def entropySensitiveDetector : DetectorModel :=
  ⟨fun _ _ => some "en", fun e _ => if e = 0 then some "en" else some "de"⟩

/-- C8 counterexample: the gate implementation in
`subtitles/subtitle_translation.py` never seeds the detector, so two runs on
the identical probe text can yield different detected languages under a
spec-conforming detector whose unseeded mode is entropy-dependent. -/
theorem gate_detection_not_deterministic :
    gateDetectRun entropySensitiveDetector 0 "Hello world"
      ≠ gateDetectRun entropySensitiveDetector 1 "Hello world" := by
  decide

/-- C8 as amended: in the modules that assign `DetectorFactory.seed = 0` on
module load, before any detection (`t.py`, `subtitles.py`), language
identification is deterministic: two runs on identical probe text yield the
identical detected tag regardless of the runs' entropy, because the seeded
detector depends only on the fixed seed and the text. -/
theorem seeded_detection_deterministic
    (m : DetectorModel) (e1 e2 : Nat) (text : String) :
    seededDetectRun m e1 text = seededDetectRun m e2 text := rfl

/-- A filesystem entry as observed by `FileReader.read`: `isFile` models
`os.path.isfile`, `size` models `os.path.getsize`, `text` the decoded file
content.  `none` at the call site models a path for which
`self.path.exists()` is false. -/
structure FsFile where
  isFile : Bool
  size : Nat
  text : String
deriving Repr, DecidableEq

/-- The exceptions raised by `FileReader.read` of
`src/file_handling/filereader.py`. -/
inductive FileReadErr where
  | fileNotFound
  | subtitleTypeNotRecognized
  | fileReadError
  | srtParseError
deriving Repr, DecidableEq

/-- `FileReader.read` of `src/file_handling/filereader.py` (lines 58-98).
`entry` is the filesystem entry at `self.path` (`none` = path does not
exist), `suffix` is `self.path.suffix`, and `parseSrt` models
`list(srt.parse(...))` (`none` = `srt.SRTParseError`).  The checks appear in
source order: existence, extension allow-list, `isfile and getsize > 0`,
then the per-format branch. -/
def fileReaderRead (entry : Option FsFile) (suffix : String)
    (parseSrt : String → Option (List Subtitle)) : Except FileReadErr ReadData :=
  match entry with
  | none => .error .fileNotFound
  | some f =>
    if suffix ∉ [".srt", ".json", ".jsonl"] then .error .subtitleTypeNotRecognized
    else if f.isFile ∧ f.size > 0 then
      if suffix = ".srt" then
        match parseSrt f.text with
        | some subs => .ok (.srt subs)
        | none => .error .srtParseError
      else if suffix = ".json" then .ok (.json f.text)
      else .ok (.jsonl f.text)
    else .error .fileReadError

/-- C9: `FileReader.read` fails with `FileNotFoundError` when the path does
not exist, with `SubtitleTypeNotRecognized` when the extension is outside
the recognized set, and with `FileReadError` when the file exists with a
recognized extension but has zero length; in each case an exception is
raised, so no document is returned. -/
theorem fileReader_read_failures (suffix : String)
    (parseSrt : String → Option (List Subtitle)) :
    fileReaderRead none suffix parseSrt = .error .fileNotFound
    ∧ (∀ f : FsFile, suffix ∉ [".srt", ".json", ".jsonl"] →
        fileReaderRead (some f) suffix parseSrt = .error .subtitleTypeNotRecognized)
    ∧ (∀ f : FsFile, suffix ∈ [".srt", ".json", ".jsonl"] → f.size = 0 →
        fileReaderRead (some f) suffix parseSrt = .error .fileReadError) := by
  refine ⟨rfl, ?_, ?_⟩
  · intro f h
    simp [fileReaderRead, h]
  · intro f hmem hsize
    simp [fileReaderRead, hmem, hsize]

theorem fileReader_read_failures_w :
    fileReaderRead none ".srt" (fun _ => some []) = .error .fileNotFound
    ∧ fileReaderRead (some ⟨true, 5, "x"⟩) ".txt" (fun _ => some [])
        = .error .subtitleTypeNotRecognized
    ∧ fileReaderRead (some ⟨true, 0, ""⟩) ".srt" (fun _ => some [])
        = .error .fileReadError :=
  ⟨(fileReader_read_failures ".srt" (fun _ => some [])).1,
   (fileReader_read_failures ".txt" (fun _ => some [])).2.1 ⟨true, 5, "x"⟩ (by decide),
   (fileReader_read_failures ".srt" (fun _ => some [])).2.2 ⟨true, 0, ""⟩ (by decide) rfl⟩

/-- The error raised by the per-caption draft `SRTProcessing.translate` of
`src/subtitles.py` ("An error occurred while translating the subtitles."). -/
inductive SRTProcError where
  | translationError
deriving Repr, DecidableEq

/-- `SRTProcessing._translate_sub` of `src/subtitles.py` (lines 147-161):
the translation logic is a TODO; the target language is lowercased and
discarded and the content is returned unchanged. -/
def subtitlesTranslateSub (sub_content _target_language : String) : String :=
  sub_content

/-- The per-caption loop of `SRTProcessing.translate` in `src/subtitles.py`
(lines 111-145), applied to the parsed records: each caption's language is
detected individually (`none` = an exception, re-raised as
`TranslationError`); a caption whose detected language differs from
`source_language` is skipped via `continue`; a matching caption is appended
as a new `srt.Subtitle` with the original `index`/`start`/`end` and
`_translate_sub`'s output as content. -/
def srtProcessingTranslate (detect : String → Option String)
    (source_language target_language : String) :
    List Subtitle → Except SRTProcError (List Subtitle)
  | [] => .ok []
  | sub :: rest =>
    match detect sub.content with
    | none => .error .translationError
    | some source_lang =>
      if source_lang ≠ source_language then
        srtProcessingTranslate detect source_language target_language rest
      else
        match srtProcessingTranslate detect source_language target_language rest with
        | .error e => .error e
        | .ok translated_subs =>
          .ok ({ sub with
                  content := subtitlesTranslateSub sub.content target_language }
               :: translated_subs)

/-- C10: in the per-caption-detection draft, whenever detection succeeds on
every caption, the result is exactly the sub-list of captions whose detected
language equals the source language, in original order with original
`index`/`start`/`end` (and, this draft's `_translate_sub` being an identity
stub, original content); mismatching captions are silently dropped and no
error is raised, so the output can be shorter than the input. -/
theorem srtProcessing_translate_filters (detect : String → Option String)
    (source_language target_language : String) :
    ∀ subs : List Subtitle, (∀ s ∈ subs, (detect s.content).isSome) →
      srtProcessingTranslate detect source_language target_language subs
        = .ok (subs.filter (fun s => decide (detect s.content = some source_language)))
  | [], _ => rfl
  | s :: subs, h => by
    have hs : (detect s.content).isSome := h s (by simp)
    have ih := srtProcessing_translate_filters detect source_language target_language
      subs (fun x hx => h x (by simp [hx]))
    match hdet : detect s.content with
    | none => rw [hdet] at hs; cases hs
    | some l =>
      by_cases hl : l = source_language
      · subst hl
        simp [srtProcessingTranslate, hdet, ih, List.filter, subtitlesTranslateSub]
      · simp [srtProcessingTranslate, hdet, hl, ih, List.filter]

/-- Concrete witness for C10: of three captions the middle one detects as
French against an expected English source; the output keeps captions 1 and 3
with their fields intact, silently dropping caption 2, with no error. -/
theorem srtProcessing_translate_filters_w :
    srtProcessingTranslate
      (fun s => if s = "Bonjour" then some "fr" else some "en") "en" "es"
      [⟨1, 0, 1000, "Hello"⟩, ⟨2, 1000, 2000, "Bonjour"⟩, ⟨3, 2000, 3000, "World"⟩]
      = .ok [⟨1, 0, 1000, "Hello"⟩, ⟨3, 2000, 3000, "World"⟩] :=
  srtProcessing_translate_filters
    (fun s => if s = "Bonjour" then some "fr" else some "en") "en" "es"
    [⟨1, 0, 1000, "Hello"⟩, ⟨2, 1000, 2000, "Bonjour"⟩, ⟨3, 2000, 3000, "World"⟩]
    (by decide)

/-
C4: the Composer/Format-Reader round trip.  `save` serializes via
`srt.compose` and `read` parses via `srt.parse`; both live in the external
`srt` library, so they are modelled from the spec's timed-caption grammar
(spec section 6): blocks of index line, `HH:MM:SS,mmm --> HH:MM:SS,mmm` timing
line, one or more non-blank text lines, and a blank separator line.  The
serialized file is modelled as its list of lines.
-/

/-- Numeric value of a decimal digit character. -/
def digitVal (c : Char) : Nat := c.toNat - 48

/-- Every digit below ten prints as a decimal digit character and parses
back to itself. -/
theorem digitChar_spec :
    ∀ d : Nat, d < 10 → (Nat.digitChar d).isDigit = true ∧ digitVal (Nat.digitChar d) = d := by
  decide

/-- Two-digit zero-padded numeral (the `HH`, `MM`, `SS` fields). -/
def pad2 (n : Nat) : List Char := [Nat.digitChar (n / 10 % 10), Nat.digitChar (n % 10)]

/-- Three-digit zero-padded numeral (the `mmm` field). -/
def pad3 (n : Nat) : List Char :=
  [Nat.digitChar (n / 100 % 10), Nat.digitChar (n / 10 % 10), Nat.digitChar (n % 10)]

/-- Read exactly two digit characters. -/
def read2 : List Char → Option (Nat × List Char)
  | a :: b :: rest =>
    if a.isDigit && b.isDigit then some (10 * digitVal a + digitVal b, rest) else none
  | _ => none

/-- Read exactly three digit characters. -/
def read3 : List Char → Option (Nat × List Char)
  | a :: b :: c :: rest =>
    if a.isDigit && b.isDigit && c.isDigit then
      some (100 * digitVal a + 10 * digitVal b + digitVal c, rest)
    else none
  | _ => none

theorem read2_pad2 (n : Nat) (h : n < 100) (rest : List Char) :
    read2 (pad2 n ++ rest) = some (n, rest) := by
  obtain ⟨d1, v1⟩ := digitChar_spec (n / 10 % 10) (Nat.mod_lt _ (by norm_num))
  obtain ⟨d2, v2⟩ := digitChar_spec (n % 10) (Nat.mod_lt _ (by norm_num))
  simp [pad2, read2, d1, d2, v1, v2]
  omega

theorem read3_pad3 (n : Nat) (h : n < 1000) (rest : List Char) :
    read3 (pad3 n ++ rest) = some (n, rest) := by
  obtain ⟨d1, v1⟩ := digitChar_spec (n / 100 % 10) (Nat.mod_lt _ (by norm_num))
  obtain ⟨d2, v2⟩ := digitChar_spec (n / 10 % 10) (Nat.mod_lt _ (by norm_num))
  obtain ⟨d3, v3⟩ := digitChar_spec (n % 10) (Nat.mod_lt _ (by norm_num))
  simp [pad3, read3, d1, d2, d3, v1, v2, v3]
  omega

/-- The characters of a timestamp in the `HH:MM:SS,mmm` grammar, for a time
given in milliseconds. -/
def timeChars (t : Nat) : List Char :=
  pad2 (t / 3600000) ++ ':' :: pad2 (t / 60000 % 60)
    ++ ':' :: pad2 (t / 1000 % 60) ++ ',' :: pad3 (t % 1000)

/-- Expect one given character. -/
def expectChar (c : Char) : List Char → Option (List Char)
  | x :: rest => if x = c then some rest else none
  | [] => none

/-- Read one `HH:MM:SS,mmm` timestamp, returning its value in
milliseconds. -/
def readTime (cs : List Char) : Option (Nat × List Char) := do
  let (hh, cs) ← read2 cs
  let cs ← expectChar ':' cs
  let (mm, cs) ← read2 cs
  let cs ← expectChar ':' cs
  let (ss, cs) ← read2 cs
  let cs ← expectChar ',' cs
  let (ms, cs) ← read3 cs
  some (hh * 3600000 + mm * 60000 + ss * 1000 + ms, cs)

theorem readTime_timeChars (t : Nat) (h : t < 360000000) (rest : List Char) :
    readTime (timeChars t ++ rest) = some (t, rest) := by
  have hh : t / 3600000 < 100 := by omega
  have hm : t / 60000 % 60 < 100 := lt_trans (Nat.mod_lt _ (by norm_num)) (by norm_num)
  have hs : t / 1000 % 60 < 100 := lt_trans (Nat.mod_lt _ (by norm_num)) (by norm_num)
  have hms : t % 1000 < 1000 := Nat.mod_lt _ (by norm_num)
  simp only [timeChars, List.append_assoc, List.cons_append]
  rw [readTime]
  simp [read2_pad2 _ hh, read2_pad2 _ hm, read2_pad2 _ hs, read3_pad3 _ hms, expectChar]
  omega

/-- The timing line `start --> end`. -/
def timeLineChars (st en : Nat) : List Char :=
  timeChars st ++ ' ' :: '-' :: '-' :: '>' :: ' ' :: timeChars en

/-- Expect the ` --> ` separator. -/
def readArrow : List Char → Option (List Char)
  | ' ' :: '-' :: '-' :: '>' :: ' ' :: rest => some rest
  | _ => none

/-- Parse a whole `start --> end` timing line. -/
def parseTimeLine (s : String) : Option (Nat × Nat) := do
  let (st, cs) ← readTime s.data
  let cs ← readArrow cs
  let (en, cs) ← readTime cs
  if cs = [] then some (st, en) else none

theorem parseTimeLine_timeLineChars (st en : Nat)
    (h1 : st < 360000000) (h2 : en < 360000000) :
    parseTimeLine ⟨timeLineChars st en⟩ = some (st, en) := by
  have hen : readTime (timeChars en) = some (en, []) := by
    have := readTime_timeChars en h2 []
    simpa using this
  rw [parseTimeLine]
  show (do
    let (st', cs) ← readTime (timeLineChars st en)
    let cs ← readArrow cs
    let (en', cs) ← readTime cs
    if cs = [] then some (st', en') else none) = some (st, en)
  rw [timeLineChars, readTime_timeChars st h1]
  simp [readArrow, hen]

/-- The decimal numeral of a positive index, most significant digit
first. -/
def natRepr (n : Nat) : String := ⟨((Nat.digits 10 n).map Nat.digitChar).reverse⟩

/-- Parse an all-digits decimal numeral line. -/
def parseNatStr (s : String) : Option Nat :=
  if s.data = [] then none
  else if s.data.all Char.isDigit then
    some (s.data.foldl (fun a c => 10 * a + digitVal c) 0)
  else none

/-- Folding the printed digits of a little-endian digit list, most
significant first, evaluates the list. -/
theorem foldl_digitChars (L : List Nat) (hL : ∀ d ∈ L, d < 10) (acc : Nat) :
    ((L.map Nat.digitChar).reverse).foldl (fun a c => 10 * a + digitVal c) acc
      = acc * 10 ^ L.length + Nat.ofDigits 10 L := by
  induction L generalizing acc with
  | nil => simp [Nat.ofDigits]
  | cons d L ih =>
    have hd := (digitChar_spec d (hL d (by simp))).2
    have ihh := ih (fun x hx => hL x (by simp [hx])) acc
    simp only [List.map_cons, List.reverse_cons, List.foldl_append, List.foldl_cons,
      List.foldl_nil, ihh, hd, Nat.ofDigits_cons, List.length_cons, pow_succ]
    ring

theorem parseNatStr_natRepr (n : Nat) (h : 1 ≤ n) : parseNatStr (natRepr n) = some n := by
  have hne : Nat.digits 10 n ≠ [] := Nat.digits_ne_nil_iff_ne_zero.mpr (by omega)
  have hlt : ∀ d ∈ Nat.digits 10 n, d < 10 :=
    fun d hd => Nat.digits_lt_base (by norm_num) hd
  have hall : (((Nat.digits 10 n).map Nat.digitChar).reverse).all Char.isDigit = true := by
    rw [List.all_eq_true]
    intro c hc
    rw [List.mem_reverse, List.mem_map] at hc
    obtain ⟨d, hd, rfl⟩ := hc
    exact (digitChar_spec d (hlt d hd)).1
  have hdata : (natRepr n).data = ((Nat.digits 10 n).map Nat.digitChar).reverse := rfl
  rw [parseNatStr, hdata, if_neg (by simp [hne]), if_pos hall,
    foldl_digitChars _ hlt 0, Nat.ofDigits_digits]
  simp

/-- Split a character list at newline characters; the result always has at
least one (possibly empty) segment. -/
def splitNl : List Char → List (List Char)
  | [] => [[]]
  | c :: cs =>
    match splitNl cs with
    | [] => [[]]
    | l :: ls => if c = '\n' then [] :: l :: ls else (c :: l) :: ls

/-- Join character-list segments with newline characters. -/
def joinNl : List (List Char) → List Char
  | [] => []
  | [l] => l
  | l :: ls => l ++ '\n' :: joinNl ls

theorem splitNl_ne_nil : ∀ cs : List Char, splitNl cs ≠ []
  | [] => by simp [splitNl]
  | c :: cs => by
    have := splitNl_ne_nil cs
    match h : splitNl cs with
    | [] => exact absurd h this
    | l :: ls => simp only [splitNl, h]; split <;> simp

theorem joinNl_splitNl : ∀ cs : List Char, joinNl (splitNl cs) = cs
  | [] => rfl
  | c :: cs => by
    have ih := joinNl_splitNl cs
    match h : splitNl cs with
    | [] => exact absurd h (splitNl_ne_nil cs)
    | l :: ls =>
      rw [h] at ih
      by_cases hc : c = '\n'
      · subst hc
        simp only [splitNl, h, if_pos rfl]
        show [] ++ '\n' :: joinNl (l :: ls) = '\n' :: cs
        rw [ih, List.nil_append]
      · simp only [splitNl, h, if_neg hc]
        match ls with
        | [] =>
          show c :: l = c :: cs
          rw [show joinNl [l] = l from rfl] at ih
          rw [ih]
        | l2 :: ls2 =>
          show (c :: l) ++ '\n' :: joinNl (l2 :: ls2) = c :: cs
          rw [List.cons_append, ← ih]
          rfl

/-- The lines of a text, as Python's file model sees them. -/
def splitLines (s : String) : List String := (splitNl s.data).map String.mk

/-- Join lines back into one newline-separated text. -/
def joinLines (ls : List String) : String := ⟨joinNl (ls.map String.data)⟩

theorem joinLines_splitLines (s : String) : joinLines (splitLines s) = s := by
  rw [joinLines, splitLines, List.map_map]
  have : (String.data ∘ String.mk) = id := rfl
  rw [this, List.map_id, joinNl_splitNl]

theorem splitLines_ne_nil (s : String) : splitLines s ≠ [] := by
  rw [splitLines]
  simp [splitNl_ne_nil s.data]

/-- Collect the content lines of a block: every line up to (and consuming)
the first blank separator line. -/
def takeContent : List String → List String × List String
  | [] => ([], [])
  | l :: rest =>
    if l = "" then ([], rest)
    else
      let r := takeContent rest
      (l :: r.1, r.2)

theorem takeContent_append (lines rest : List String)
    (h : ∀ l ∈ lines, l ≠ "") :
    takeContent (lines ++ "" :: rest) = (lines, rest) := by
  induction lines with
  | nil => simp [takeContent]
  | cons l ls ih =>
    have hl : l ≠ "" := h l (by simp)
    have ihh := ih (fun x hx => h x (by simp [hx]))
    simp [takeContent, hl, ihh]

theorem takeContent_length : ∀ ls : List String, (takeContent ls).2.length ≤ ls.length
  | [] => le_refl _
  | l :: rest => by
    by_cases hl : l = ""
    · simp [takeContent, hl]
    · have := takeContent_length rest
      simp only [takeContent, if_neg hl]
      exact le_trans this (by simp)

/-- Parse a line list into caption records, block by block: an index line, a
timing line, one or more non-blank content lines, a blank separator.  Models
`srt.parse` on the spec's timed-caption grammar; any malformed block makes
the whole parse fail (`none`), no partial document is returned. -/
def parseLines : List String → Option (List Subtitle)
  | [] => some []
  | [_] => none
  | idxLine :: timeLine :: rest =>
    match parseNatStr idxLine, parseTimeLine timeLine with
    | some idx, some (st, en) =>
      let tc := takeContent rest
      if tc.1 = [] then none
      else
        match parseLines tc.2 with
        | some subs => some (⟨idx, st, en, joinLines tc.1⟩ :: subs)
        | none => none
    | _, _ => none
termination_by ls => ls.length
decreasing_by
  simp only [List.length_cons]
  have := takeContent_length rest
  omega

/-- The serialized lines of one record: index, `start --> end`, the content
lines, a blank separator.  Models `srt.compose` for one record. -/
def composeRecord (r : Subtitle) : List String :=
  natRepr r.index :: String.mk (timeLineChars r.start r.stop)
    :: (splitLines r.content ++ [""])

/-- `srt.compose` over the whole document, modelled at line granularity
(`save` writes these lines joined by newlines in UTF-8). -/
def composeLines : List Subtitle → List String
  | [] => []
  | r :: rs => composeRecord r ++ composeLines rs

/-- A record valid for the timed-caption grammar: positive index, times
printable in `HH:MM:SS,mmm` (below 100 hours), and no blank line inside the
content (the grammar uses the blank line as block separator, and requires at
least one content line, which also rules out empty content since
`splitLines ""` is `[""]`). -/
def validRecord (r : Subtitle) : Prop :=
  1 ≤ r.index ∧ r.start < 360000000 ∧ r.stop < 360000000
    ∧ ∀ l ∈ splitLines r.content, l ≠ ""

instance validRecord_decidable : DecidablePred validRecord := fun r => by
  unfold validRecord
  infer_instance

/-- C4: the write/read round trip.  Serializing any valid document with the
Composer (`srt.compose`, modelled by `composeLines`) and re-parsing the
written lines with the Format Reader's parser (`srt.parse`, modelled by
`parseLines`) recovers every record exactly: same `index`, `start`, `stop`
and `content`, in the same order, for documents with zero or more
records. -/
theorem read_write_roundtrip :
    ∀ rs : List Subtitle, (∀ r ∈ rs, validRecord r) →
      parseLines (composeLines rs) = some rs
  | [], _ => by simp [composeLines, parseLines]
  | r :: rs, h => by
    obtain ⟨hidx, hst, hen, hcont⟩ := h r (by simp)
    have ih := read_write_roundtrip rs (fun x hx => h x (by simp [hx]))
    have hsplit := splitLines_ne_nil r.content
    show parseLines (composeRecord r ++ composeLines rs) = _
    rw [composeRecord]
    simp only [List.cons_append, List.append_assoc, List.singleton_append]
    rw [parseLines.eq_def]
    simp only [parseNatStr_natRepr _ hidx, parseTimeLine_timeLineChars _ _ hst hen,
      takeContent_append _ _ hcont]
    simp [hsplit, ih, joinLines_splitLines]

/-- Concrete witness for C4: a two-record document, the second with
multi-line content, survives the write/read round trip unchanged. -/
theorem read_write_roundtrip_w :
    parseLines (composeLines
      [⟨1, 1000, 2000, "Hello"⟩, ⟨2, 3000, 4000, "Big\nWorld"⟩])
      = some [⟨1, 1000, 2000, "Hello"⟩, ⟨2, 3000, 4000, "Big\nWorld"⟩] :=
  read_write_roundtrip
    [⟨1, 1000, 2000, "Hello"⟩, ⟨2, 3000, 4000, "Big\nWorld"⟩] (by decide)
